import Mathlib

/-!
Verification of the JSON-RPC dispatch layer of the Indian Stock Exchange
MCP server (`src/ise_mcp/server.py`).  The HTTP handler
`JSONRPCHandler.handle_jsonrpc`, the tool dispatcher `handle_call_tool`
and the tool catalog `handle_list_tools` are embedded shallowly: JSON
values are an inductive type, Python dictionaries are association lists
with unique keys (as produced by `json.loads`), and Python exceptions are
an `Except String` result carrying `str(e)`.
-/

namespace IseMcp

/-- JSON values as parsed by Python's `json.loads`.  Numbers are modelled
as integers (all numeric values appearing in the server's own payloads are
integers; floats are outside the scope of the embedding).  Python `None`
and JSON `null` coincide, as they do in `json.loads`/`json.dumps`. -/
inductive Json where
  | null
  | bool (b : Bool)
  | num (n : Int)
  | str (s : String)
  | arr (elems : List Json)
  | obj (fields : List (String × Json))

/-- A Python dict that came out of `json.loads`: an association list in
insertion order.  Keys are unique in every value produced by parsing. -/
abbrev Dict := List (String × Json)

/-- Python `d[key]` / `d.get(key)` lookup on a dict. -/
def dget : Dict → String → Option Json
  | [], _ => none
  | (k, v) :: rest, key => if k == key then some v else dget rest key

/-- Python `key in d` on a dict. -/
def hasKey (d : Dict) (k : String) : Bool :=
  (dget d k).isSome

/-- Python `x == "s"` where the right-hand side is a string literal:
true exactly when `x` is that string. -/
def Json.isStr : Json → String → Bool
  | .str t, s => t == s
  | _, _ => false

/-- Python truthiness test `not x` (negated): `None`, `False`, `0`, `""`,
`[]` and `\x7b\x7d` are falsy. -/
def pyFalsy : Json → Bool
  | .null => true
  | .bool b => !b
  | .num n => n == 0
  | .str s => s == ""
  | .arr l => l.isEmpty
  | .obj f => f.isEmpty

/-- Python `not x` where `x` may be `None` (an absent `dict.get` result). -/
def pyFalsyOpt : Option Json → Bool
  | none => true
  | some v => pyFalsy v

/-- Name of the Python type of a parsed JSON value. -/
def pyTypeName : Json → String
  | .null => "NoneType"
  | .bool _ => "bool"
  | .num _ => "int"
  | .str _ => "str"
  | .arr _ => "list"
  | .obj _ => "dict"

/-- Python `container.get(key)`: succeeds on a dict, raises
`AttributeError` (whose `str` is modelled here) on anything else. -/
def pyGet (container : Json) (key : String) : Except String (Option Json) :=
  match container with
  | .obj o => .ok (dget o key)
  | v => .error ("'" ++ pyTypeName v ++ "' object has no attribute 'get'")

/-- Python subscript `container[key]` with a string key: dict lookup, with
`str(KeyError(key)) = "'key'"` on a missing key and the usual `TypeError`
messages on non-dict containers. -/
def getItem (container : Json) (key : String) : Except String Json :=
  match container with
  | .obj o =>
    match dget o key with
    | some v => .ok v
    | none => .error ("'" ++ key ++ "'")
  | .arr _ => .error "list indices must be integers or slices, not str"
  | .str _ => .error "string indices must be integers"
  | .null => .error "'NoneType' object is not subscriptable"
  | .bool _ => .error "'bool' object is not subscriptable"
  | .num _ => .error "'int' object is not subscriptable"

/-- Python `key in container` for the dict case (the only case the server
reaches: the containing code has already subscripted the dict). -/
def pyIn (key : String) (container : Json) : Bool :=
  match container with
  | .obj o => hasKey o key
  | _ => false

def quoteChar : Char := Char.ofNat 39

def dquoteChar : Char := Char.ofNat 34

def backslashChar : Char := Char.ofNat 92

/-- One character of a Python `repr` of a string, given the chosen quote. -/
def pyEscChar (q : Char) (c : Char) : String :=
  if c == backslashChar then "\\\\"
  else if c == q then "\\" ++ String.mk [q]
  else if c == '\n' then "\\n"
  else if c == '\r' then "\\r"
  else if c == '\t' then "\\t"
  else String.mk [c]

/-- Python `repr` of a string: single quotes, switching to double quotes
when the string contains a single quote but no double quote. -/
def pyStrRepr (s : String) : String :=
  let q := if s.data.contains quoteChar && !(s.data.contains dquoteChar) then dquoteChar
    else quoteChar
  String.mk [q] ++ String.join (s.data.map (pyEscChar q)) ++ String.mk [q]

mutual

/-- Python `repr` (hence `str`) of a parsed-JSON value: `None`, `True`,
`False`, decimal integers, quoted strings, `[a, b]` lists and
`\x7b'k': v\x7d` dicts. -/
def pyRepr : Json → String
  | .null => "None"
  | .bool true => "True"
  | .bool false => "False"
  | .num n => toString n
  | .str s => pyStrRepr s
  | .arr l => "[" ++ pyReprList l ++ "]"
  | .obj f => "\x7b" ++ pyReprFields f ++ "\x7d"

/-- Comma-separated `repr`s of list elements. -/
def pyReprList : List Json → String
  | [] => ""
  | [x] => pyRepr x
  | x :: y :: rest => pyRepr x ++ ", " ++ pyReprList (y :: rest)

/-- Comma-separated `'key': value` items of a dict `repr`. -/
def pyReprFields : List (String × Json) → String
  | [] => ""
  | [(k, v)] => pyStrRepr k ++ ": " ++ pyRepr v
  | (k, v) :: p :: rest => pyStrRepr k ++ ": " ++ pyRepr v ++ ", " ++ pyReprFields (p :: rest)

end

/-- Python `str(x)` on a parsed-JSON value: the string itself for strings,
`repr` for everything else (as used by f-string interpolation). -/
def pyToStr : Json → String
  | .str s => s
  | v => pyRepr v

/-- One character of a JSON string literal as emitted by `json.dumps`
with `ensure_ascii=False`. -/
def jsonEscChar (c : Char) : String :=
  if c == dquoteChar then "\\\""
  else if c == backslashChar then "\\\\"
  else if c == '\n' then "\\n"
  else if c == '\r' then "\\r"
  else if c == '\t' then "\\t"
  else String.mk [c]

/-- A JSON string literal as emitted by `json.dumps` with
`ensure_ascii=False` (control characters other than the common escapes do
not occur in the server's strings). -/
def jsonQuote (s : String) : String :=
  String.mk [dquoteChar] ++ String.join (s.data.map jsonEscChar) ++ String.mk [dquoteChar]

/-- `n` spaces. -/
def spaces (n : Nat) : String :=
  String.mk (List.replicate n ' ')

mutual

/-- Python `json.dumps(v, indent=2, ensure_ascii=False)` at the given
current indentation level: empty containers print flat, non-empty ones
one element per line, item separator `,`, key separator `: `. -/
def dumpsVal (ind : Nat) : Json → String
  | .null => "null"
  | .bool true => "true"
  | .bool false => "false"
  | .num n => toString n
  | .str s => jsonQuote s
  | .arr [] => "[]"
  | .arr (x :: xs) =>
    "[\n" ++ dumpsArrItems (ind + 2) (x :: xs) ++ "\n" ++ spaces ind ++ "]"
  | .obj [] => "\x7b\x7d"
  | .obj (p :: ps) =>
    "\x7b\n" ++ dumpsObjItems (ind + 2) (p :: ps) ++ "\n" ++ spaces ind ++ "\x7d"

/-- The lines of a non-empty JSON array under `indent=2`. -/
def dumpsArrItems (ind : Nat) : List Json → String
  | [] => ""
  | [x] => spaces ind ++ dumpsVal ind x
  | x :: y :: rest =>
    spaces ind ++ dumpsVal ind x ++ ",\n" ++ dumpsArrItems ind (y :: rest)

/-- The lines of a non-empty JSON object under `indent=2`. -/
def dumpsObjItems (ind : Nat) : List (String × Json) → String
  | [] => ""
  | [(k, v)] => spaces ind ++ jsonQuote k ++ ": " ++ dumpsVal ind v
  | (k, v) :: p :: rest =>
    spaces ind ++ jsonQuote k ++ ": " ++ dumpsVal ind v ++ ",\n" ++
      dumpsObjItems ind (p :: rest)

end

/-- `json.dumps(v, indent=2, ensure_ascii=False)` as called by every tool
branch of `handle_call_tool`. -/
def dumps2 (v : Json) : String :=
  dumpsVal 0 v

/-- Python `needle in haystack` on strings: substring containment. -/
def strContains (haystack needle : String) : Bool :=
  haystack.data.tails.any (fun t => needle.data.isPrefixOf t)

/-- An MCP tool descriptor as constructed in `handle_list_tools`
(`mcp.types.Tool`): only the fields the server sets. -/
structure Tool where
  name : String
  description : String
  inputSchema : Json

/-- A simple string-typed property entry of an input schema. -/
def strProp (description : String) : Json :=
  .obj [("type", .str "string"), ("description", .str description)]

/-- A string-typed property entry with an `enum` list. -/
def enumProp (choices : List String) (description : String) : Json :=
  .obj [("type", .str "string"), ("enum", .arr (choices.map .str)),
        ("description", .str description)]

/-- A string-typed property entry with an `enum` list and a `default`. -/
def enumPropD (choices : List String) (description dflt : String) : Json :=
  .obj [("type", .str "string"), ("enum", .arr (choices.map .str)),
        ("description", .str description), ("default", .str dflt)]

/-- An object schema with the given properties and required names. -/
def objSchema (props : List (String × Json)) (required : List String) : Json :=
  .obj [("type", .str "object"), ("properties", .obj props),
        ("required", .arr (required.map .str))]

/-- The static tool catalog returned by `handle_list_tools`. -/
def toolCatalog : List Tool :=
  [ { name := "get_stock_data",
      description := "Get detailed financial data for a specific company by name",
      inputSchema := objSchema
        [("name", strProp "Company name, shortened name, or search term")] ["name"] },
    { name := "search_industry",
      description := "Search for companies within a specific industry",
      inputSchema := objSchema [("query", strProp "Industry search term")] ["query"] },
    { name := "search_mutual_funds",
      description := "Search for mutual funds",
      inputSchema := objSchema [("query", strProp "Mutual fund search term")] ["query"] },
    { name := "get_trending_stocks",
      description := "Get trending stocks with top gainers and losers",
      inputSchema := objSchema [] [] },
    { name := "get_52_week_high_low",
      description := "Get stocks with highest and lowest prices in the last 52 weeks",
      inputSchema := objSchema [] [] },
    { name := "get_nse_most_active",
      description := "Get most active stocks on NSE by trading volume",
      inputSchema := objSchema [] [] },
    { name := "get_bse_most_active",
      description := "Get most active stocks on BSE by trading volume",
      inputSchema := objSchema [] [] },
    { name := "get_mutual_funds",
      description := "Get latest mutual fund data with NAV and returns",
      inputSchema := objSchema [] [] },
    { name := "get_price_shockers",
      description := "Get stocks with significant price changes",
      inputSchema := objSchema [] [] },
    { name := "get_commodities",
      description := "Get real-time commodity futures data",
      inputSchema := objSchema [] [] },
    { name := "get_analyst_recommendations",
      description := "Get analyst target prices and recommendations for a stock",
      inputSchema := objSchema [("stock_id", strProp "Stock identifier")] ["stock_id"] },
    { name := "get_stock_forecasts",
      description := "Get detailed forecast information for a stock",
      inputSchema := objSchema
        [("stock_id", strProp "Stock identifier"),
         ("measure_code", enumProp
           ["EPS", "CPS", "CPX", "DPS", "EBI", "EBT", "GPS", "GRM", "NAV",
            "NDT", "NET", "PRE", "ROA", "ROE", "SAL"] "Measure code for forecast"),
         ("period_type", enumProp ["Annual", "Interim"] "Period type"),
         ("data_type", enumProp ["Actuals", "Estimates"] "Data type"),
         ("age", enumProp
           ["OneWeekAgo", "ThirtyDaysAgo", "SixtyDaysAgo", "NinetyDaysAgo", "Current"]
           "Data age")]
        ["stock_id", "measure_code", "period_type", "data_type", "age"] },
    { name := "get_historical_data",
      description := "Get historical stock data with various filters",
      inputSchema := objSchema
        [("stock_name", strProp "Stock symbol or name"),
         ("period", enumPropD ["1m", "6m", "1yr", "3yr", "5yr", "10yr", "max"]
           "Time period" "5yr"),
         ("filter", enumPropD ["default", "price", "pe", "sm", "evebitda", "ptb", "mcs"]
           "Data filter" "default")]
        ["stock_name"] },
    { name := "get_historical_stats",
      description := "Get historical statistics for a stock",
      inputSchema := objSchema
        [("stock_name", strProp "Stock symbol or name"),
         ("stats", enumProp
           ["quarter_results", "yoy_results", "balancesheet", "cashflow", "ratios",
            "shareholding_pattern_quarterly", "shareholding_pattern_yearly"]
           "Type of historical statistics")]
        ["stock_name", "stats"] } ]

/-- The names of the catalog's tools. -/
def toolNames : List String :=
  toolCatalog.map Tool.name

/-- The opaque upstream collaborator (`ISEClient._make_request`): given an
endpoint and query parameters it returns a JSON payload, or fails — a
`.error msg` models a raised `Exception` with `str(e) = msg`.  A call made
with `params=None` in the source is a call with `[]` here (both produce
the bare endpoint URL, since an empty dict is falsy). -/
def Gateway : Type :=
  String → List (String × Json) → Except String Json

/-- One `TextContent` block as built by `handle_call_tool`. -/
structure TextContent where
  type : String
  text : String

/-- A `"text"`-typed content block. -/
def textBlock (s : String) : TextContent :=
  { type := "text", text := s }

/-- The body of `handle_call_tool`'s `try` block: each recognized tool
reads its arguments (a failing subscript raises), calls the gateway and
formats the payload; an unrecognized name raises
`ValueError(f"Unknown tool: \x7bname\x7d")`. -/
def callToolInner (gw : Gateway) (name : Json) (args : Json) :
    Except String (List TextContent) :=
  if name.isStr "get_stock_data" then
    match getItem args "name" with
    | .error e => .error e
    | .ok v =>
      match gw "/stock" [("name", v)] with
      | .error e => .error e
      | .ok data =>
        .ok [{ type := "text",
               text := "Stock Data for " ++ pyToStr v ++ ":\n\n" ++ dumps2 data }]
  else if name.isStr "search_industry" then
    match getItem args "query" with
    | .error e => .error e
    | .ok v =>
      match gw "/industry_search" [("query", v)] with
      | .error e => .error e
      | .ok data =>
        .ok [{ type := "text",
               text := "Industry Search Results for '" ++ pyToStr v ++ "':\n\n" ++
                 dumps2 data }]
  else if name.isStr "search_mutual_funds" then
    match getItem args "query" with
    | .error e => .error e
    | .ok v =>
      match gw "/mutual_fund_search" [("query", v)] with
      | .error e => .error e
      | .ok data =>
        .ok [{ type := "text",
               text := "Mutual Fund Search Results for '" ++ pyToStr v ++ "':\n\n" ++
                 dumps2 data }]
  else if name.isStr "get_trending_stocks" then
    match gw "/trending" [] with
    | .error e => .error e
    | .ok data =>
      .ok [{ type := "text", text := "Trending Stocks:\n\n" ++ dumps2 data }]
  else if name.isStr "get_52_week_high_low" then
    match gw "/fetch_52_week_high_low_data" [] with
    | .error e => .error e
    | .ok data =>
      .ok [{ type := "text", text := "52 Week High/Low Data:\n\n" ++ dumps2 data }]
  else if name.isStr "get_nse_most_active" then
    match gw "/NSE_most_active" [] with
    | .error e => .error e
    | .ok data =>
      .ok [{ type := "text", text := "NSE Most Active Stocks:\n\n" ++ dumps2 data }]
  else if name.isStr "get_bse_most_active" then
    match gw "/BSE_most_active" [] with
    | .error e => .error e
    | .ok data =>
      .ok [{ type := "text", text := "BSE Most Active Stocks:\n\n" ++ dumps2 data }]
  else if name.isStr "get_mutual_funds" then
    match gw "/mutual_funds" [] with
    | .error e => .error e
    | .ok data =>
      .ok [{ type := "text", text := "Mutual Funds Data:\n\n" ++ dumps2 data }]
  else if name.isStr "get_price_shockers" then
    match gw "/price_shockers" [] with
    | .error e => .error e
    | .ok data =>
      .ok [{ type := "text", text := "Price Shockers:\n\n" ++ dumps2 data }]
  else if name.isStr "get_commodities" then
    match gw "/commodities" [] with
    | .error e => .error e
    | .ok data =>
      .ok [{ type := "text", text := "Commodity Futures Data:\n\n" ++ dumps2 data }]
  else if name.isStr "get_analyst_recommendations" then
    match getItem args "stock_id" with
    | .error e => .error e
    | .ok v =>
      match gw "/stock_target_price" [("stock_id", v)] with
      | .error e => .error e
      | .ok data =>
        .ok [{ type := "text",
               text := "Analyst Recommendations for " ++ pyToStr v ++ ":\n\n" ++
                 dumps2 data }]
  else if name.isStr "get_stock_forecasts" then
    match getItem args "stock_id" with
    | .error e => .error e
    | .ok sid =>
      match getItem args "measure_code" with
      | .error e => .error e
      | .ok mc =>
        match getItem args "period_type" with
        | .error e => .error e
        | .ok pt =>
          match getItem args "data_type" with
          | .error e => .error e
          | .ok dt =>
            match getItem args "age" with
            | .error e => .error e
            | .ok age =>
              match gw "/stock_forecasts"
                  [("stock_id", sid), ("measure_code", mc), ("period_type", pt),
                   ("data_type", dt), ("age", age)] with
              | .error e => .error e
              | .ok data =>
                .ok [{ type := "text",
                       text := "Stock Forecasts for " ++ pyToStr sid ++ ":\n\n" ++
                         dumps2 data }]
  else if name.isStr "get_historical_data" then
    match getItem args "stock_name" with
    | .error e => .error e
    | .ok sn =>
      let ps := [("stock_name", sn)]
      let ps := if pyIn "period" args then
          ps ++ [("period", (getItem args "period").toOption.getD .null)]
        else ps
      let ps := if pyIn "filter" args then
          ps ++ [("filter", (getItem args "filter").toOption.getD .null)]
        else ps
      match gw "/historical_data" ps with
      | .error e => .error e
      | .ok data =>
        .ok [{ type := "text",
               text := "Historical Data for " ++ pyToStr sn ++ ":\n\n" ++ dumps2 data }]
  else if name.isStr "get_historical_stats" then
    match getItem args "stock_name" with
    | .error e => .error e
    | .ok sn =>
      match getItem args "stats" with
      | .error e => .error e
      | .ok st =>
        match gw "/historical_stats" [("stock_name", sn), ("stats", st)] with
        | .error e => .error e
        | .ok data =>
          .ok [{ type := "text",
                 text := "Historical Stats (" ++ pyToStr st ++ ") for " ++ pyToStr sn ++
                   ":\n\n" ++ dumps2 data }]
  else
    .error ("Unknown tool: " ++ pyToStr name)

/-- `handle_call_tool`: runs the tool body and converts any raised
exception into a single text block
`"Error executing <name>: <str(e)>"` — it never raises. -/
def handle_call_tool (gw : Gateway) (name : Json) (args : Json) : List TextContent :=
  match callToolInner gw name args with
  | .ok blocks => blocks
  | .error e =>
    [{ type := "text", text := "Error executing " ++ pyToStr name ++ ": " ++ e }]

/-- An HTTP response of the handler: its status code and, when the text
is a serialized JSON-RPC envelope, that envelope (`none` for an empty
body, as in the 202 notification responses). -/
structure HttpResponse where
  status : Nat
  body : Option Json

/-- `_create_success_response`: serializes
`\x7b"jsonrpc": "2.0", "id": request_id, "result": result\x7d` at HTTP
status 200. -/
def successResponse (result : Json) (requestId : Json) : HttpResponse :=
  { status := 200,
    body := some (.obj [("jsonrpc", .str "2.0"), ("id", requestId),
                        ("result", result)]) }

/-- `_create_error_response`: serializes
`\x7b"jsonrpc": "2.0", "id": request_id, "error": \x7b"code": …,
"message": …\x7d\x7d` at the given HTTP status. -/
def errorResponse (code : Int) (message : String) (requestId : Json)
    (status : Nat) : HttpResponse :=
  { status := status,
    body := some (.obj [("jsonrpc", .str "2.0"), ("id", requestId),
                        ("error", .obj [("code", .num code),
                                        ("message", .str message)])]) }

/-- The serialized form of one tool in the `tools/list` result: exactly
the fields `name`, `description`, `inputSchema` (the `clean_tool` dict). -/
def toolJson (t : Tool) : Json :=
  .obj [("name", .str t.name), ("description", .str t.description),
        ("inputSchema", t.inputSchema)]

/-- The cleaned tool list of the `tools/list` branch. -/
def toolsJsonList : List Json :=
  toolCatalog.map toolJson

/-- The `tools/list` result `\x7b"tools": [...]\x7d`. -/
def toolsListResult : Json :=
  .obj [("tools", .arr toolsJsonList)]

/-- The `tools/call` result: the cleaned content list wrapped in
`\x7b"content": [...]\x7d`. -/
def contentJson (blocks : List TextContent) : Json :=
  .obj [("content", .arr (blocks.map fun c =>
    .obj [("type", .str c.type), ("text", .str c.text)]))]

/-- The fixed `initialize` result (`Config.SERVER_NAME` is the constant
`"indian-stock-exchange"`). -/
def initializeResult : Json :=
  .obj [("protocolVersion", .str "2024-11-05"),
        ("capabilities", .obj [("tools", .obj [])]),
        ("serverInfo", .obj [("name", .str "indian-stock-exchange"),
                             ("version", .str "1.0.0")])]

/-- Outcome of the method-dispatch `try` block of `handle_jsonrpc`:
either the early empty-202 return of the `notifications/initialized`
branch, a `result`, or an `error` dict (including the `-32603` wrapping
of any exception the block raises). -/
inductive DispatchOut where
  | special
  | res (r : Json)
  | err (code : Int) (message : String)

/-- The method-dispatch `try` block of `handle_jsonrpc`, for a non-`None`
`method` value: matches the method name against the five handled methods
in source order; any raised exception becomes a `-32603` error. -/
def dispatchMethod (gw : Gateway) (m : Json) (params : Json) : DispatchOut :=
  if m.isStr "tools/list" then
    .res toolsListResult
  else if m.isStr "tools/call" then
    match pyGet params "name" with
    | .error e => .err (-32603) ("Internal error: " ++ e)
    | .ok toolNameOpt =>
      match pyGet params "arguments" with
      | .error e => .err (-32603) ("Internal error: " ++ e)
      | .ok argsOpt =>
        if pyFalsyOpt toolNameOpt then
          .err (-32602) "Missing tool name"
        else
          .res (contentJson (handle_call_tool gw (toolNameOpt.getD .null)
            (argsOpt.getD (.obj []))))
  else if m.isStr "initialize" then
    match pyGet params "clientInfo" with
    | .error e => .err (-32603) ("Internal error: " ++ e)
    | .ok ciOpt =>
      match pyGet (ciOpt.getD (.obj [])) "name" with
      | .error e => .err (-32603) ("Internal error: " ++ e)
      | .ok _ =>
        match pyGet (ciOpt.getD (.obj [])) "version" with
        | .error e => .err (-32603) ("Internal error: " ++ e)
        | .ok _ => .res initializeResult
  else if m.isStr "notifications/initialized" then
    .special
  else if m.isStr "ping" then
    .res (.obj [])
  else
    .err (-32601) ("Method not found: " ++ pyToStr m)

/-- `data.get("jsonrpc") == "2.0"`. -/
def jsonrpcOk (data : Dict) : Bool :=
  match dget data "jsonrpc" with
  | some v => v.isStr "2.0"
  | none => false

/-- `data.get("method")` as Python sees it: an explicit JSON `null` value
is the same `None` as an absent key. -/
def pyMethod (data : Dict) : Option Json :=
  match dget data "method" with
  | some .null => none
  | o => o

/-- `data.get("params", \x7b\x7d)`. -/
def paramsOf (data : Dict) : Json :=
  (dget data "params").getD (.obj [])

/-- `data.get("id")`, with Python `None` rendered as JSON `null` when it
is echoed into a response envelope. -/
def reqIdJson (data : Dict) : Json :=
  (dget data "id").getD .null

/-- `JSONRPCHandler.handle_jsonrpc` on a successfully parsed JSON object
body: validates the protocol tag, applies the missing-`method` tolerance
(empty success when `str(data)` contains `"initialized"`, else
`-32600`), dispatches, and emits — an empty 202 for the
`notifications/initialized` branch and for error-free notifications
(`"id" not in data`), otherwise a success or error envelope whose id is
`data.get("id")`. -/
def handle_jsonrpc (gw : Gateway) (data : Dict) : HttpResponse :=
  if jsonrpcOk data then
    match pyMethod data with
    | none =>
      if strContains (pyRepr (.obj data)) "initialized" then
        successResponse (.obj []) (reqIdJson data)
      else
        errorResponse (-32600) "Invalid Request - method field is required"
          (reqIdJson data) 200
    | some m =>
      match dispatchMethod gw m (paramsOf data) with
      | .special => { status := 202, body := none }
      | .err c msg => errorResponse c msg (reqIdJson data) 200
      | .res r =>
        if hasKey data "id" then successResponse r (reqIdJson data)
        else { status := 202, body := none }
  else
    errorResponse (-32600) "Invalid Request - JSON-RPC version must be 2.0"
      (reqIdJson data) 200

/-- The `id` member of a response envelope, when the body is one. -/
def bodyIdOf (resp : HttpResponse) : Option Json :=
  match resp.body with
  | some (.obj fields) => dget fields "id"
  | _ => none

/-- Whether the response body is an envelope carrying a `result` member. -/
def bodyHasResult (resp : HttpResponse) : Bool :=
  match resp.body with
  | some (.obj fields) => hasKey fields "result"
  | _ => false

/-- Whether the response body is an envelope carrying an `error` member. -/
def bodyHasError (resp : HttpResponse) : Bool :=
  match resp.body with
  | some (.obj fields) => hasKey fields "error"
  | _ => false

/-- The key list of a JSON object. -/
def objKeys : Json → List String
  | .obj fields => fields.map Prod.fst
  | _ => []

/-- A gateway on which every upstream call fails with the given message
(a raised `httpx` error surfaced as `Exception(msg)`). -/
def failGw (msg : String) : Gateway :=
  fun _ _ => .error msg

/-- An arbitrary gateway for inputs whose handling never consults the
upstream collaborator. -/
def gw0 : Gateway :=
  failGw "unreachable"

/-- A gateway that answers every upstream call with the same payload. -/
def constGw (payload : Json) : Gateway :=
  fun _ _ => .ok payload

/-- Scenario 4 of the spec: a request with protocol tag `"1.0"`. -/
def envScenario4 : Dict :=
  [("jsonrpc", .str "1.0"), ("method", .str "ping"), ("id", .num 9)]

/-- A request (its `id` key is present) whose method is
`notifications/initialized`. -/
def envNotifInitId : Dict :=
  [("jsonrpc", .str "2.0"), ("method", .str "notifications/initialized"),
   ("id", .num 5)]

/-- A `ping` request with id 7. -/
def envPingId : Dict :=
  [("jsonrpc", .str "2.0"), ("method", .str "ping"), ("id", .num 7)]

/-- A notification (no `id`) with no `method` key whose repr contains the
substring `"initialized"`. -/
def envShim : Dict :=
  [("jsonrpc", .str "2.0"), ("note", .str "initialized")]

/-- A request with no `method` key whose repr contains `"initialized"`. -/
def envShimId : Dict :=
  [("jsonrpc", .str "2.0"), ("note", .str "client initialized"), ("id", .num 3)]

/-- A `tools/call` request whose tool name matches no catalog entry. -/
def envUnknownTool : Dict :=
  [("jsonrpc", .str "2.0"), ("method", .str "tools/call"),
   ("params", .obj [("name", .str "nonexistent_tool")]), ("id", .num 1)]

/-- A `ping` notification (no `id` key). -/
def envPingNotif : Dict :=
  [("jsonrpc", .str "2.0"), ("method", .str "ping")]

/-- The upstream payload of Scenario 2. -/
def priceJson : Json :=
  .obj [("price", .num 100)]

/-- The claimed rendering of a tool's primary identifying argument: the
argument's value as text. -/
def argStrOf (args : Json) (k : String) : String :=
  match args with
  | .obj o =>
    match dget o k with
    | some v => pyToStr v
    | none => ""
  | _ => ""

/-- The claimed `" for <primary argument>"` segment: present when the
tool has a primary identifying argument, omitted otherwise. -/
def keyPart : Option String → Json → String
  | some k, args => " for " ++ argStrOf args k
  | none, _ => ""

/-- Formalisation of the claimed `tools/call` text format, following the
spec's words: a fixed per-tool human title, then `" for "` and the
primary identifying argument when the tool has one (omitted otherwise),
then `":\n\n"` and the pretty-printed payload. -/
def claimC6Text (title : String) (keyArg : Option String) (args payload : Json) :
    String :=
  title ++ (keyPart keyArg args ++ (":\n\n" ++ dumps2 payload))

/-- Formalisation of claim C6 as stated: every tool has a fixed title and
an optional primary-argument key such that every successful call renders
exactly `claimC6Text`; and the concrete `get_stock_data`/`Reliance`
scenario yields its exact text. -/
def ClaimC6 : Prop :=
  (∀ name ∈ toolNames, ∃ (title : String) (keyArg : Option String),
    ∀ (args payload : Json) (blocks : List TextContent),
      callToolInner (constGw payload) (.str name) args = .ok blocks →
      blocks = [textBlock (claimC6Text title keyArg args payload)]) ∧
  handle_call_tool (constGw priceJson) (.str "get_stock_data")
      (.obj [("name", .str "Reliance")]) =
    [textBlock "Stock Data for Reliance:\n\n\x7b\n  \"price\": 100\n\x7d"]

/-- The per-tool header of the amended C6 claim: the fixed title, plus
`" for "` and the raw primary argument for most argument-taking tools,
with the search tools single-quoting the argument and
`get_historical_stats` embedding its `stats` argument in the title;
argument-less tools use the bare title. -/
def amendedC6Header (name : String) (args : Json) : String :=
  if name = "get_stock_data" then "Stock Data for " ++ argStrOf args "name"
  else if name = "search_industry" then
    "Industry Search Results for '" ++ argStrOf args "query" ++ "'"
  else if name = "search_mutual_funds" then
    "Mutual Fund Search Results for '" ++ argStrOf args "query" ++ "'"
  else if name = "get_trending_stocks" then "Trending Stocks"
  else if name = "get_52_week_high_low" then "52 Week High/Low Data"
  else if name = "get_nse_most_active" then "NSE Most Active Stocks"
  else if name = "get_bse_most_active" then "BSE Most Active Stocks"
  else if name = "get_mutual_funds" then "Mutual Funds Data"
  else if name = "get_price_shockers" then "Price Shockers"
  else if name = "get_commodities" then "Commodity Futures Data"
  else if name = "get_analyst_recommendations" then
    "Analyst Recommendations for " ++ argStrOf args "stock_id"
  else if name = "get_stock_forecasts" then
    "Stock Forecasts for " ++ argStrOf args "stock_id"
  else if name = "get_historical_data" then
    "Historical Data for " ++ argStrOf args "stock_name"
  else if name = "get_historical_stats" then
    "Historical Stats (" ++ argStrOf args "stats" ++ ") for " ++
      argStrOf args "stock_name"
  else ""

/-- The amended C6 text format: the per-tool header, then `":\n\n"` and
the 2-space pretty-printed upstream payload. -/
def amendedC6Text (name : String) (args payload : Json) : String :=
  amendedC6Header name args ++ (":\n\n" ++ dumps2 payload)

/-- A value that passes `isStr s` is the string `s`. -/
theorem isStr_true {m : Json} {s : String} (h : m.isStr s = true) : m = .str s := by
  cases m <;> simp [Json.isStr] at h
  rw [h]

/-- A present key yields a value. -/
theorem dget_of_hasKey {d : Dict} {k : String} (h : hasKey d k = true) :
    ∃ v, dget d k = some v := by
  unfold hasKey at h
  exact Option.isSome_iff_exists.mp h

/-- An absent key yields no value. -/
theorem dget_of_not_hasKey {d : Dict} {k : String} (h : hasKey d k = false) :
    dget d k = none := by
  unfold hasKey at h
  exact Option.not_isSome_iff_eq_none.mp (by simp [h])

/-- `pyMethod` only reports values the dict really holds. -/
theorem pyMethod_eq_some {data : Dict} {m : Json} (h : pyMethod data = some m) :
    dget data "method" = some m := by
  unfold pyMethod at h
  split at h
  · exact absurd h (by simp)
  · exact h

/-- Only the `notifications/initialized` branch returns the early 202. -/
theorem dispatchMethod_special {gw : Gateway} {m params : Json}
    (h : dispatchMethod gw m params = .special) :
    m = .str "notifications/initialized" := by
  unfold dispatchMethod at h
  repeat' split at h
  all_goals first
    | exact DispatchOut.noConfusion h
    | exact isStr_true (by assumption)

/-- A success envelope echoes the request id. -/
theorem bodyIdOf_successResponse (r v : Json) :
    bodyIdOf (successResponse r v) = some v := rfl

/-- An error envelope echoes the request id. -/
theorem bodyIdOf_errorResponse (c : Int) (msg : String) (v : Json) (st : Nat) :
    bodyIdOf (errorResponse c msg v st) = some v := rfl

/-- A success envelope carries a `result` member and no `error` member. -/
theorem xor_successResponse (r v : Json) :
    ((bodyHasResult (successResponse r v)).xor
      (bodyHasError (successResponse r v))) = true := rfl

/-- An error envelope carries an `error` member and no `result` member. -/
theorem xor_errorResponse (c : Int) (msg : String) (v : Json) (st : Nat) :
    ((bodyHasResult (errorResponse c msg v st)).xor
      (bodyHasError (errorResponse c msg v st))) = true := rfl

/-- C8: an envelope whose `jsonrpc` value is not the string `"2.0"`
(including an absent key) is answered, before any method dispatch, with a
`-32600` error whose message contains `"2.0"`, at HTTP status 200, the
envelope's id echoed (`null` when absent). -/
theorem c8_invalid_version (gw : Gateway) (data : Dict)
    (h : jsonrpcOk data = false) :
    handle_jsonrpc gw data =
      errorResponse (-32600) "Invalid Request - JSON-RPC version must be 2.0"
        (reqIdJson data) 200 ∧
    strContains "Invalid Request - JSON-RPC version must be 2.0" "2.0" = true ∧
    (handle_jsonrpc gw data).status = 200 := by
  have h1 : handle_jsonrpc gw data =
      errorResponse (-32600) "Invalid Request - JSON-RPC version must be 2.0"
        (reqIdJson data) 200 := by
    simp [handle_jsonrpc, h]
  refine ⟨h1, by decide, ?_⟩
  rw [h1]
  rfl

/-- C8 witness: Scenario 4 (`jsonrpc` is `"1.0"`, `id` is 9). -/
theorem c8_invalid_version_witness :
    jsonrpcOk envScenario4 = false ∧
    (handle_jsonrpc gw0 envScenario4 =
      errorResponse (-32600) "Invalid Request - JSON-RPC version must be 2.0"
        (reqIdJson envScenario4) 200 ∧
    strContains "Invalid Request - JSON-RPC version must be 2.0" "2.0" = true ∧
    (handle_jsonrpc gw0 envScenario4).status = 200) :=
  ⟨rfl, c8_invalid_version gw0 envScenario4 rfl⟩

/-- C9: a `tools/call` dispatch whose params mapping has no `name` key
returns the `-32602` missing-tool-name error. -/
theorem c9_missing_tool_name (gw : Gateway) (p : Dict)
    (h : hasKey p "name" = false) :
    dispatchMethod gw (.str "tools/call") (.obj p) =
      .err (-32602) "Missing tool name" := by
  simp [dispatchMethod, Json.isStr, pyGet, dget_of_not_hasKey h, pyFalsyOpt]

/-- C9 witness: empty params. -/
theorem c9_missing_tool_name_witness :
    hasKey ([] : Dict) "name" = false ∧
    dispatchMethod gw0 (.str "tools/call") (.obj []) =
      .err (-32602) "Missing tool name" :=
  ⟨rfl, c9_missing_tool_name gw0 [] rfl⟩

/-- C10: a `tools/call` dispatch whose params carry a falsy `name` value
(empty string, `null`, `0`, `false`, empty containers) returns the same
`-32602` error as an absent key, for every gateway — so the upstream
collaborator is never consulted. -/
theorem c10_falsy_tool_name (gw : Gateway) (p : Dict) (v : Json)
    (h : dget p "name" = some v) (hf : pyFalsy v = true) :
    dispatchMethod gw (.str "tools/call") (.obj p) =
      .err (-32602) "Missing tool name" := by
  simp [dispatchMethod, Json.isStr, pyGet, h, pyFalsyOpt, hf]

/-- C10 witness: `name` present as the empty string. -/
theorem c10_falsy_tool_name_witness :
    dget [("name", Json.str "")] "name" = some (Json.str "") ∧
    pyFalsy (Json.str "") = true ∧
    dispatchMethod gw0 (.str "tools/call") (.obj [("name", Json.str "")]) =
      .err (-32602) "Missing tool name" :=
  ⟨rfl, rfl, c10_falsy_tool_name gw0 [("name", Json.str "")] (Json.str "") rfl rfl⟩

/-- C5: every `tools/list` dispatch returns `\x7b"tools": [...]\x7d`, and
every serialized tool's key set is exactly
`name`, `description`, `inputSchema`. -/
theorem c5_tools_list_shape (gw : Gateway) (params : Json) :
    dispatchMethod gw (.str "tools/list") params = .res toolsListResult ∧
    toolsListResult = .obj [("tools", .arr toolsJsonList)] ∧
    (toolsJsonList.all fun x =>
      objKeys x == ["name", "description", "inputSchema"]) = true :=
  ⟨rfl, rfl, by decide⟩

/-- C5 witness: the shape at a concrete gateway and params value. -/
theorem c5_tools_list_shape_witness :
    dispatchMethod gw0 (.str "tools/list") (.obj []) = .res toolsListResult ∧
    toolsListResult = .obj [("tools", .arr toolsJsonList)] ∧
    (toolsJsonList.all fun x =>
      objKeys x == ["name", "description", "inputSchema"]) = true :=
  c5_tools_list_shape gw0 (.obj [])

/-- C3: a tag-`"2.0"` envelope whose `method` key is absent or null gets
an empty success result when `str(data)` contains the substring
`"initialized"`, and a `-32600` invalid-request error otherwise. -/
theorem c3_missing_method (gw : Gateway) (data : Dict)
    (h20 : jsonrpcOk data = true)
    (hm : dget data "method" = none ∨ dget data "method" = some Json.null) :
    handle_jsonrpc gw data =
      if strContains (pyRepr (.obj data)) "initialized" then
        successResponse (.obj []) (reqIdJson data)
      else
        errorResponse (-32600) "Invalid Request - method field is required"
          (reqIdJson data) 200 := by
  have hpm : pyMethod data = none := by
    rcases hm with h | h <;> simp [pyMethod, h]
  simp [handle_jsonrpc, h20, hpm]

/-- C3 witness: a no-`method` request whose repr contains
`"initialized"`. -/
theorem c3_missing_method_witness :
    jsonrpcOk envShimId = true ∧
    (handle_jsonrpc gw0 envShimId =
      if strContains (pyRepr (.obj envShimId)) "initialized" then
        successResponse (.obj []) (reqIdJson envShimId)
      else
        errorResponse (-32600) "Invalid Request - method field is required"
          (reqIdJson envShimId) 200) :=
  ⟨rfl, c3_missing_method gw0 envShimId rfl (Or.inl rfl)⟩

/-- C1 counterexample: a request — `id` key present, protocol tag
`"2.0"` — whose method is `notifications/initialized` receives an empty
202 response and no JSON-RPC envelope at all, contradicting the claim
that every such request receives exactly one response envelope. -/
theorem c1_counterexample :
    hasKey envNotifInitId "id" = true ∧ jsonrpcOk envNotifInitId = true ∧
    handle_jsonrpc gw0 envNotifInitId = { status := 202, body := none } :=
  ⟨rfl, rfl, rfl⟩

/-- Every handled tag-`"2.0"` request whose method is not
`notifications/initialized` is answered by a success or error envelope
carrying the request id. -/
theorem handle_jsonrpc_reply_shape (gw : Gateway) (data : Dict)
    (h20 : jsonrpcOk data = true) (hid : hasKey data "id" = true)
    (hm : dget data "method" ≠ some (.str "notifications/initialized")) :
    (∃ r, handle_jsonrpc gw data = successResponse r (reqIdJson data)) ∨
    (∃ c msg, handle_jsonrpc gw data = errorResponse c msg (reqIdJson data) 200) := by
  unfold handle_jsonrpc
  repeat' split
  all_goals first
    | exact Or.inl ⟨_, rfl⟩
    | exact Or.inr ⟨_, _, rfl⟩
    | exact absurd h20 (by assumption)
    | exact absurd hid (by assumption)
    | exact absurd ((pyMethod_eq_some (by assumption)).trans
        (congrArg some (dispatchMethod_special (by assumption)))) hm

/-- C1 amended: every tag-`"2.0"` envelope with an `id` key whose method
is not the literal `"notifications/initialized"` receives exactly one
response envelope whose `id` member equals the request's `id` value
(type preserved, including `null`), carrying a `result` member or an
`error` member, never both. -/
theorem c1_request_gets_reply (gw : Gateway) (data : Dict)
    (h20 : jsonrpcOk data = true) (hid : hasKey data "id" = true)
    (hm : dget data "method" ≠ some (.str "notifications/initialized")) :
    ∃ v, dget data "id" = some v ∧
      bodyIdOf (handle_jsonrpc gw data) = some v ∧
      ((bodyHasResult (handle_jsonrpc gw data)).xor
        (bodyHasError (handle_jsonrpc gw data))) = true := by
  obtain ⟨v, hv⟩ := dget_of_hasKey hid
  have hrid : reqIdJson data = v := by simp [reqIdJson, hv]
  refine ⟨v, hv, ?_⟩
  rcases handle_jsonrpc_reply_shape gw data h20 hid hm with ⟨r, hr⟩ | ⟨c, msg, he⟩
  · rw [hr, hrid]
    exact ⟨bodyIdOf_successResponse r v, xor_successResponse r v⟩
  · rw [he, hrid]
    exact ⟨bodyIdOf_errorResponse c msg v 200, xor_errorResponse c msg v 200⟩

/-- C1 witness: a `ping` request with id 7. -/
theorem c1_request_gets_reply_witness :
    jsonrpcOk envPingId = true ∧ hasKey envPingId "id" = true ∧
    ∃ v, dget envPingId "id" = some v ∧
      bodyIdOf (handle_jsonrpc gw0 envPingId) = some v ∧
      ((bodyHasResult (handle_jsonrpc gw0 envPingId)).xor
        (bodyHasError (handle_jsonrpc gw0 envPingId))) = true :=
  ⟨rfl, rfl, c1_request_gets_reply gw0 envPingId rfl rfl
    (by intro h; injection h with h1; injection h1 with h2; exact absurd h2 (by decide))⟩

/-- C4 counterexample: a notification (no `id` key) with no `method` key
whose repr contains `"initialized"` produces no dispatch error, yet the
handler answers HTTP 200 with a non-empty success envelope instead of
the claimed 202 with empty body. -/
theorem c4_counterexample :
    hasKey envShim "id" = false ∧ jsonrpcOk envShim = true ∧
    (handle_jsonrpc gw0 envShim).status = 200 ∧
    (handle_jsonrpc gw0 envShim).body.isSome = true ∧
    bodyHasError (handle_jsonrpc gw0 envShim) = false :=
  ⟨rfl, rfl, rfl, rfl, rfl⟩

/-- C4 amended: for every tag-`"2.0"` notification (no `id` key) whose
`method` key is present and non-null, an error-free dispatch yields HTTP
202 with an empty body, and an erroring dispatch yields HTTP 200 with a
JSON-RPC error envelope whose `id` is `null`. -/
theorem c4_notification_emission (gw : Gateway) (data : Dict) (m : Json)
    (h20 : jsonrpcOk data = true) (hid : hasKey data "id" = false)
    (hm : pyMethod data = some m) :
    (∀ c msg, dispatchMethod gw m (paramsOf data) = .err c msg →
      handle_jsonrpc gw data = errorResponse c msg .null 200) ∧
    (∀ r, dispatchMethod gw m (paramsOf data) = .res r →
      handle_jsonrpc gw data = { status := 202, body := none }) ∧
    (dispatchMethod gw m (paramsOf data) = .special →
      handle_jsonrpc gw data = { status := 202, body := none }) := by
  have hrid : reqIdJson data = .null := by
    simp [reqIdJson, dget_of_not_hasKey hid]
  refine ⟨?_, ?_, ?_⟩
  · intro c msg hdisp
    simp [handle_jsonrpc, h20, hm, hdisp, hrid]
  · intro r hdisp
    simp [handle_jsonrpc, h20, hm, hdisp, hid]
  · intro hdisp
    simp [handle_jsonrpc, h20, hm, hdisp]

/-- C4 witness: a `ping` notification dispatches without error and is
answered by the empty 202. -/
theorem c4_notification_emission_witness :
    jsonrpcOk envPingNotif = true ∧ hasKey envPingNotif "id" = false ∧
    handle_jsonrpc gw0 envPingNotif = { status := 202, body := none } :=
  ⟨rfl, rfl,
    (c4_notification_emission gw0 envPingNotif (.str "ping") rfl rfl rfl).2.1
      (.obj []) rfl⟩

/-- C2 counterexample: a `tools/call` request naming a tool absent from
the catalog is answered with a successful result (its text block reports
the unknown tool), not with a dispatch-level JSON-RPC error. -/
theorem c2_counterexample :
    handle_jsonrpc gw0 envUnknownTool =
      successResponse (contentJson
        [textBlock "Error executing nonexistent_tool: Unknown tool: nonexistent_tool"])
        (.num 1) ∧
    bodyHasError (handle_jsonrpc gw0 envUnknownTool) = false ∧
    bodyHasResult (handle_jsonrpc gw0 envUnknownTool) = true :=
  ⟨rfl, rfl, rfl⟩

/-- C2 amended: a `tools/call` dispatch with a non-empty tool name absent
from the catalog yields a successful result whose single text block is
`"Error executing <name>: Unknown tool: <name>"` — distinguishable from
upstream-gateway failures only by its message text — and no JSON-RPC
error. -/
theorem c2_unknown_tool_result (gw : Gateway) (name : String) (args : Json)
    (h : name ∉ toolNames) (hne : name ≠ "") :
    dispatchMethod gw (.str "tools/call")
        (.obj [("name", .str name), ("arguments", args)]) =
      .res (contentJson
        [textBlock ("Error executing " ++ name ++ ": " ++ ("Unknown tool: " ++ name))]) := by
  have hne' : (name == "") = false := beq_eq_false_iff_ne.mpr hne
  simp only [toolNames, toolCatalog, List.map_cons, List.map_nil, List.mem_cons,
    List.not_mem_nil, or_false, not_or] at h
  obtain ⟨n1, n2, n3, n4, n5, n6, n7, n8, n9, n10, n11, n12, n13, n14⟩ := h
  simp [dispatchMethod, Json.isStr, pyGet, dget, pyFalsyOpt, pyFalsy, hne',
    handle_call_tool, callToolInner, pyToStr, textBlock,
    beq_eq_false_iff_ne.mpr n1, beq_eq_false_iff_ne.mpr n2,
    beq_eq_false_iff_ne.mpr n3, beq_eq_false_iff_ne.mpr n4,
    beq_eq_false_iff_ne.mpr n5, beq_eq_false_iff_ne.mpr n6,
    beq_eq_false_iff_ne.mpr n7, beq_eq_false_iff_ne.mpr n8,
    beq_eq_false_iff_ne.mpr n9, beq_eq_false_iff_ne.mpr n10,
    beq_eq_false_iff_ne.mpr n11, beq_eq_false_iff_ne.mpr n12,
    beq_eq_false_iff_ne.mpr n13, beq_eq_false_iff_ne.mpr n14]

/-- C2 witness: the unknown tool name `"nope"`. -/
theorem c2_unknown_tool_result_witness :
    "nope" ∉ toolNames ∧
    dispatchMethod gw0 (.str "tools/call")
        (.obj [("name", .str "nope"), ("arguments", .obj [])]) =
      .res (contentJson
        [textBlock ("Error executing " ++ "nope" ++ ": " ++ ("Unknown tool: " ++ "nope"))]) :=
  ⟨by decide, c2_unknown_tool_result gw0 "nope" (.obj []) (by decide) (by decide)⟩

/-- The character data of a concatenation. -/
theorem string_data_append (a b : String) : (a ++ b).data = a.data ++ b.data := by
  cases a
  cases b
  rfl

/-- Dropping everything but the suffix of a concatenation leaves the
suffix. -/
theorem append_drop (t s : String) :
    (t ++ s).data.drop ((t ++ s).data.length - s.data.length) = s.data := by
  rw [string_data_append, List.length_append, Nat.add_sub_cancel, List.drop_left]

/-- No string with suffix `s` equals `R` when `R` does not end in `s`. -/
theorem ne_append_of_suffix_mismatch (t s R : String)
    (h : R.data.drop (R.data.length - s.data.length) ≠ s.data) : t ++ s ≠ R := by
  intro he
  apply h
  rw [← he]
  exact append_drop t s

/-- No tool name in the catalog is the empty string. -/
theorem toolNames_ne_empty : ∀ n ∈ toolNames, (n == "") = false := by decide

/-- A `tools/call` dispatch with a non-empty string tool name reaches
`handle_call_tool` and wraps its blocks into a `content` result. -/
theorem dispatch_tools_call (gw : Gateway) (name : String) (args : Json)
    (hne : (name == "") = false) :
    dispatchMethod gw (.str "tools/call")
        (.obj [("name", .str name), ("arguments", args)]) =
      .res (contentJson (handle_call_tool gw (.str name) args)) := by
  simp [dispatchMethod, Json.isStr, pyGet, dget, pyFalsyOpt, pyFalsy, hne]

/-- A raised tool-body exception becomes the `Error executing` block. -/
theorem handle_call_tool_error {gw : Gateway} {n args : Json} {e : String}
    (h : callToolInner gw n args = .error e) :
    handle_call_tool gw n args =
      [textBlock ("Error executing " ++ pyToStr n ++ ": " ++ e)] := by
  simp [handle_call_tool, h, textBlock]

/-- With a failing gateway, every known tool's body raises. -/
theorem callToolInner_failGw (msg name : String) (args : Json)
    (h : name ∈ toolNames) :
    ∃ e, callToolInner (failGw msg) (.str name) args = .error e := by
  simp only [toolNames, toolCatalog, List.map_cons, List.map_nil, List.mem_cons,
    List.not_mem_nil, or_false] at h
  rcases h with rfl | rfl | rfl | rfl | rfl | rfl | rfl | rfl | rfl | rfl | rfl |
    rfl | rfl | rfl
  · rcases hg : getItem args "name" with e | v
    · exact ⟨e, by simp [callToolInner, Json.isStr, hg]⟩
    · exact ⟨msg, by simp [callToolInner, Json.isStr, hg, failGw]⟩
  · rcases hg : getItem args "query" with e | v
    · exact ⟨e, by simp [callToolInner, Json.isStr, hg]⟩
    · exact ⟨msg, by simp [callToolInner, Json.isStr, hg, failGw]⟩
  · rcases hg : getItem args "query" with e | v
    · exact ⟨e, by simp [callToolInner, Json.isStr, hg]⟩
    · exact ⟨msg, by simp [callToolInner, Json.isStr, hg, failGw]⟩
  · exact ⟨msg, by simp [callToolInner, Json.isStr, failGw]⟩
  · exact ⟨msg, by simp [callToolInner, Json.isStr, failGw]⟩
  · exact ⟨msg, by simp [callToolInner, Json.isStr, failGw]⟩
  · exact ⟨msg, by simp [callToolInner, Json.isStr, failGw]⟩
  · exact ⟨msg, by simp [callToolInner, Json.isStr, failGw]⟩
  · exact ⟨msg, by simp [callToolInner, Json.isStr, failGw]⟩
  · exact ⟨msg, by simp [callToolInner, Json.isStr, failGw]⟩
  · rcases hg : getItem args "stock_id" with e | v
    · exact ⟨e, by simp [callToolInner, Json.isStr, hg]⟩
    · exact ⟨msg, by simp [callToolInner, Json.isStr, hg, failGw]⟩
  · rcases hg : getItem args "stock_id" with e | v1
    · exact ⟨e, by simp [callToolInner, Json.isStr, hg]⟩
    · rcases hg2 : getItem args "measure_code" with e | v2
      · exact ⟨e, by simp [callToolInner, Json.isStr, hg, hg2]⟩
      · rcases hg3 : getItem args "period_type" with e | v3
        · exact ⟨e, by simp [callToolInner, Json.isStr, hg, hg2, hg3]⟩
        · rcases hg4 : getItem args "data_type" with e | v4
          · exact ⟨e, by simp [callToolInner, Json.isStr, hg, hg2, hg3, hg4]⟩
          · rcases hg5 : getItem args "age" with e | v5
            · exact ⟨e, by simp [callToolInner, Json.isStr, hg, hg2, hg3, hg4, hg5]⟩
            · exact ⟨msg,
                by simp [callToolInner, Json.isStr, hg, hg2, hg3, hg4, hg5, failGw]⟩
  · rcases hg : getItem args "stock_name" with e | v
    · exact ⟨e, by simp [callToolInner, Json.isStr, hg]⟩
    · exact ⟨msg, by simp [callToolInner, Json.isStr, hg, failGw]⟩
  · rcases hg : getItem args "stock_name" with e | v
    · exact ⟨e, by simp [callToolInner, Json.isStr, hg]⟩
    · rcases hg2 : getItem args "stats" with e | v2
      · exact ⟨e, by simp [callToolInner, Json.isStr, hg, hg2]⟩
      · exact ⟨msg, by simp [callToolInner, Json.isStr, hg, hg2, failGw]⟩

/-- C7: a `tools/call` of any catalog tool against a gateway whose
upstream call fails still yields a successful RPC result whose single
text block starts with `"Error executing <tool name>: "`; no JSON-RPC
protocol error is produced. -/
theorem c7_upstream_failure (msg name : String) (args : Json)
    (h : name ∈ toolNames) :
    ∃ e, dispatchMethod (failGw msg) (.str "tools/call")
        (.obj [("name", .str name), ("arguments", args)]) =
      .res (contentJson [textBlock ("Error executing " ++ name ++ ": " ++ e)]) := by
  obtain ⟨e, he⟩ := callToolInner_failGw msg name args h
  refine ⟨e, ?_⟩
  rw [dispatch_tools_call (failGw msg) name args (toolNames_ne_empty name h),
    handle_call_tool_error he]
  simp [pyToStr]

/-- C7 witness: `get_trending_stocks` against a failing gateway. -/
theorem c7_upstream_failure_witness :
    "get_trending_stocks" ∈ toolNames ∧
    ∃ e, dispatchMethod (failGw "API request failed: boom") (.str "tools/call")
        (.obj [("name", .str "get_trending_stocks"), ("arguments", .obj [])]) =
      .res (contentJson
        [textBlock ("Error executing " ++ "get_trending_stocks" ++ ": " ++ e)]) :=
  ⟨by decide, c7_upstream_failure "API request failed: boom" "get_trending_stocks"
    (.obj []) (by decide)⟩

/-- C6 counterexample: the claimed format rule fails on the code — for
`search_industry` there is no fixed title and primary-argument choice
reproducing the rendered text, because the code single-quotes the query
argument (`Industry Search Results for 'a':`). -/
theorem c6_counterexample : ¬ ClaimC6 := by
  rintro ⟨hgen, -⟩
  obtain ⟨title, keyArg, hfmt⟩ := hgen "search_industry" (by decide)
  have ha := hfmt (.obj [("query", .str "a")]) (.obj [])
    [textBlock "Industry Search Results for 'a':\n\n\x7b\x7d"] rfl
  have hb := hfmt (.obj [("query", .str "b")]) (.obj [])
    [textBlock "Industry Search Results for 'b':\n\n\x7b\x7d"] rfl
  simp only [textBlock, List.cons.injEq, TextContent.mk.injEq, true_and, and_true] at ha hb
  cases keyArg with
  | none =>
    have hab : ("Industry Search Results for 'a':\n\n\x7b\x7d" : String) =
        "Industry Search Results for 'b':\n\n\x7b\x7d" := by
      rw [ha, hb]
      simp [claimC6Text, keyPart]
    exact absurd hab (by decide)
  | some k =>
    by_cases hk : k = "query"
    · subst hk
      have ha' : (title ++ " for a:\n\n\x7b\x7d" : String) =
          "Industry Search Results for 'a':\n\n\x7b\x7d" := by
        rw [ha]
        exact rfl
      exact ne_append_of_suffix_mismatch title " for a:\n\n\x7b\x7d"
        "Industry Search Results for 'a':\n\n\x7b\x7d" (by decide) ha'
    · have harg : argStrOf (.obj [("query", .str "a")]) k = "" := by
        simp [argStrOf, dget, beq_eq_false_iff_ne.mpr (Ne.symm hk)]
      have ha' : (title ++ " for :\n\n\x7b\x7d" : String) =
          "Industry Search Results for 'a':\n\n\x7b\x7d" := by
        rw [ha]
        simp [claimC6Text, keyPart, harg]
        exact rfl
      exact ne_append_of_suffix_mismatch title " for :\n\n\x7b\x7d"
        "Industry Search Results for 'a':\n\n\x7b\x7d" (by decide) ha'

/-- String concatenation is associative. -/
theorem string_append_assoc (a b c : String) : (a ++ b) ++ c = a ++ (b ++ c) := by
  cases a
  cases b
  cases c
  exact congrArg String.mk (List.append_assoc _ _ _)

/-- A successful subscript determines the claimed argument rendering. -/
theorem argStrOf_of_getItem {args : Json} {k : String} {v : Json}
    (h : getItem args k = .ok v) : argStrOf args k = pyToStr v := by
  cases args with
  | obj o =>
    simp only [getItem] at h
    rcases hd : dget o k with _ | w
    · rw [hd] at h
      simp at h
    · rw [hd] at h
      simp at h
      subst h
      simp [argStrOf, hd]
  | null => simp [getItem] at h
  | bool b => simp [getItem] at h
  | num n => simp [getItem] at h
  | str s => simp [getItem] at h
  | arr l => simp [getItem] at h

/-- C6 amended: every successful `tools/call` of any catalog tool, with
any argument object the call accepts and any upstream payload, renders
the single text block as the per-tool header followed by `":\n\n"` and
the 2-space pretty-printed payload (`amendedC6Text`) — raw key argument
for most argument-taking tools, single-quoted for the search tools,
`stats` embedded in the title for `get_historical_stats`, bare title for
argument-less tools; in particular `get_stock_data`/`Reliance` with
payload `\x7b"price": 100\x7d` yields exactly
`"Stock Data for Reliance:\n\n\x7b\n  \"price\": 100\n\x7d"`. -/
theorem c6_call_text_format :
    (∀ (name : String), name ∈ toolNames →
      ∀ (gw : Gateway) (args payload : Json) (blocks : List TextContent),
        (∀ (endpoint : String) (q : List (String × Json)),
          gw endpoint q = .ok payload) →
        callToolInner gw (.str name) args = .ok blocks →
        blocks = [textBlock (amendedC6Text name args payload)]) ∧
    handle_call_tool (constGw priceJson) (.str "get_stock_data")
        (.obj [("name", .str "Reliance")]) =
      [textBlock "Stock Data for Reliance:\n\n\x7b\n  \"price\": 100\n\x7d"] := by
  refine ⟨?_, rfl⟩
  intro name hmem gw args payload blocks hgw h
  simp only [toolNames, toolCatalog, List.map_cons, List.map_nil, List.mem_cons,
    List.not_mem_nil, or_false] at hmem
  rcases hmem with rfl | rfl | rfl | rfl | rfl | rfl | rfl | rfl | rfl | rfl | rfl |
    rfl | rfl | rfl
  · rcases hg : getItem args "name" with e | v
    · simp [callToolInner, Json.isStr, hg] at h
    · simp [callToolInner, Json.isStr, hg, hgw] at h
      subst h
      simp [amendedC6Text, amendedC6Header, textBlock, argStrOf_of_getItem hg,
        string_append_assoc]
      try exact rfl
  · rcases hg : getItem args "query" with e | v
    · simp [callToolInner, Json.isStr, hg] at h
    · simp [callToolInner, Json.isStr, hg, hgw] at h
      subst h
      simp [amendedC6Text, amendedC6Header, textBlock, argStrOf_of_getItem hg,
        string_append_assoc]
      try exact rfl
  · rcases hg : getItem args "query" with e | v
    · simp [callToolInner, Json.isStr, hg] at h
    · simp [callToolInner, Json.isStr, hg, hgw] at h
      subst h
      simp [amendedC6Text, amendedC6Header, textBlock, argStrOf_of_getItem hg,
        string_append_assoc]
      try exact rfl
  · simp [callToolInner, Json.isStr, hgw] at h
    subst h
    simp [amendedC6Text, amendedC6Header, textBlock]
    try exact rfl
  · simp [callToolInner, Json.isStr, hgw] at h
    subst h
    simp [amendedC6Text, amendedC6Header, textBlock]
    try exact rfl
  · simp [callToolInner, Json.isStr, hgw] at h
    subst h
    simp [amendedC6Text, amendedC6Header, textBlock]
    try exact rfl
  · simp [callToolInner, Json.isStr, hgw] at h
    subst h
    simp [amendedC6Text, amendedC6Header, textBlock]
    try exact rfl
  · simp [callToolInner, Json.isStr, hgw] at h
    subst h
    simp [amendedC6Text, amendedC6Header, textBlock]
    try exact rfl
  · simp [callToolInner, Json.isStr, hgw] at h
    subst h
    simp [amendedC6Text, amendedC6Header, textBlock]
    try exact rfl
  · simp [callToolInner, Json.isStr, hgw] at h
    subst h
    simp [amendedC6Text, amendedC6Header, textBlock]
    try exact rfl
  · rcases hg : getItem args "stock_id" with e | v
    · simp [callToolInner, Json.isStr, hg] at h
    · simp [callToolInner, Json.isStr, hg, hgw] at h
      subst h
      simp [amendedC6Text, amendedC6Header, textBlock, argStrOf_of_getItem hg,
        string_append_assoc]
      try exact rfl
  · rcases hg : getItem args "stock_id" with e | v1
    · simp [callToolInner, Json.isStr, hg] at h
    · rcases hg2 : getItem args "measure_code" with e | v2
      · simp [callToolInner, Json.isStr, hg, hg2] at h
      · rcases hg3 : getItem args "period_type" with e | v3
        · simp [callToolInner, Json.isStr, hg, hg2, hg3] at h
        · rcases hg4 : getItem args "data_type" with e | v4
          · simp [callToolInner, Json.isStr, hg, hg2, hg3, hg4] at h
          · rcases hg5 : getItem args "age" with e | v5
            · simp [callToolInner, Json.isStr, hg, hg2, hg3, hg4, hg5] at h
            · simp [callToolInner, Json.isStr, hg, hg2, hg3, hg4, hg5, hgw] at h
              subst h
              simp [amendedC6Text, amendedC6Header, textBlock,
                argStrOf_of_getItem hg, string_append_assoc]
              try exact rfl
  · rcases hg : getItem args "stock_name" with e | v
    · simp [callToolInner, Json.isStr, hg] at h
    · simp [callToolInner, Json.isStr, hg, hgw] at h
      subst h
      simp [amendedC6Text, amendedC6Header, textBlock, argStrOf_of_getItem hg,
        string_append_assoc]
      try exact rfl
  · rcases hg : getItem args "stock_name" with e | v
    · simp [callToolInner, Json.isStr, hg] at h
    · rcases hg2 : getItem args "stats" with e | v2
      · simp [callToolInner, Json.isStr, hg, hg2] at h
      · simp [callToolInner, Json.isStr, hg, hg2, hgw] at h
        subst h
        simp [amendedC6Text, amendedC6Header, textBlock, argStrOf_of_getItem hg,
          argStrOf_of_getItem hg2, string_append_assoc]
        try exact rfl

/-- C6 witness: the universal conjunct applied at the Scenario 2 inputs. -/
theorem c6_call_text_format_witness :
    "get_stock_data" ∈ toolNames ∧
    [textBlock "Stock Data for Reliance:\n\n\x7b\n  \"price\": 100\n\x7d"] =
      [textBlock (amendedC6Text "get_stock_data"
        (.obj [("name", .str "Reliance")]) priceJson)] :=
  ⟨by decide, c6_call_text_format.1 "get_stock_data" (by decide) (constGw priceJson)
    (.obj [("name", .str "Reliance")]) priceJson
    [textBlock "Stock Data for Reliance:\n\n\x7b\n  \"price\": 100\n\x7d"]
    (fun _ _ => rfl) rfl⟩

end IseMcp
